import Mathlib

/-!
Verification of the VIYAN fashion-store admin backend (`main.py`,
`backend/schemas.py`) against its natural-language specification.

The request handlers are shallowly embedded as pure Lean functions over an
explicit server state (the document store plus the in-memory token registry).
The SHA-256 digest is kept abstract as a function parameter `hash`; request
handlers thread it explicitly.  Machine integers in the source are Python
arbitrary-precision integers, so they are modelled as `Int` directly.
-/

namespace Viyan

/-- Python whitespace test used by `str.strip` (modelled for the ASCII range,
which covers all credential strings appearing in the program). -/
def isSpaceChar (c : Char) : Bool :=
  c == ' ' || c == '\t' || c == '\n' || c == '\r'

/-- Python `str.strip()`: remove leading and trailing whitespace. -/
def pyStrip (s : String) : String :=
  String.mk (((s.data.dropWhile isSpaceChar).reverse.dropWhile isSpaceChar).reverse)

/-- Python `str.lower()` (modelled for the ASCII range via `Char.toLower`). -/
def pyLower (s : String) : String :=
  String.mk (s.data.map Char.toLower)

/-- The composite `·.strip().lower()` applied to usernames in `admin_login`. -/
def canon (s : String) : String :=
  pyLower (pyStrip s)

/-- `DEFAULT_USERNAME` from `main.py`. -/
def DEFAULT_USERNAME : String := "viyan fashion world"

/-- `DEFAULT_PASSWORD` from `main.py`. -/
def DEFAULT_PASSWORD : String := "viyan@2023"

/-- A stored admin-settings document.  The document store is schemaless, so
every field is optional: `doc.get(k)` in the source returns `None` for a
missing key, modelled by `Option`. -/
structure SettingsDoc where
  username : Option String
  password_hash : Option String
  upi_id : Option String
  logo_url : Option String
deriving Repr, DecidableEq

/-- The `AdminSettings` response model of `backend/schemas.py`: `username`,
`password_hash` and `upi_id` are required strings, `logo_url` optional. -/
structure AdminSettings where
  username : String
  password_hash : String
  upi_id : String
  logo_url : Option String
deriving Repr, DecidableEq

/-- Pydantic validation performed by `AdminSettings(...)` in `get_settings`:
every explicitly passed field must be a string (passing `None` for a `str`
field is a validation error even when the field has a default). -/
def AdminSettings.ofDoc (doc : SettingsDoc) : Except String AdminSettings :=
  match doc.username, doc.password_hash, doc.upi_id with
  | some u, some ph, some upi => .ok ⟨u, ph, upi, doc.logo_url⟩
  | _, _, _ => .error "ValidationError"

/-- A stored product record, with the fields of `backend/schemas.py`'s
`Product` model (every stored product is created through that model, so all
fields are present). -/
structure Product where
  name : String
  description : Option String
  images : List String
  price : Int
  discount_percent : Int
  sizes : List String
  offer_minutes : Option Int
  is_active : Bool
deriving Repr, DecidableEq

/-- Pydantic validation of `backend/schemas.py`'s `Product` model:
`price ≥ 0`, `0 ≤ discount_percent ≤ 95`, `offer_minutes ≥ 1` when given.
Constructing a `Product` with out-of-range values raises `ValidationError`. -/
def Product.build (name : String) (description : Option String)
    (images : List String) (price : Int) (discount_percent : Int)
    (sizes : List String) (offer_minutes : Option Int) (is_active : Bool) :
    Except String Product :=
  if 0 ≤ price ∧ 0 ≤ discount_percent ∧ discount_percent ≤ 95 ∧
      offer_minutes.all (fun m => 1 ≤ m) then
    .ok ⟨name, description, images, price, discount_percent, sizes,
      offer_minutes, is_active⟩
  else
    .error "ValidationError"

/-- The document store contents: the singleton settings document, the product
collection (internal id paired with the record), and the id-generation
counter of the store. -/
structure Db where
  settings : Option SettingsDoc
  products : List (String × Product)
  nextId : Nat
deriving Repr, DecidableEq

/-- Whole-server state: the optional database handle (`db is None` when the
store is not configured) and the in-memory `TOKENS` registry. -/
structure ServerState where
  db : Option Db
  tokens : List String
deriving Repr, DecidableEq

/-- Outcome of a request: an `HTTPException` with its status code, or an
uncaught exception (which the host framework surfaces as a 500 server
error). -/
inductive ApiError where
  | http (status : Nat) (detail : String)
  | exn (msg : String)
deriving Repr, DecidableEq

/-- `auth_dependency` from `main.py`: rejects with 401 when the token is
missing, empty (falsy) or not in the registry. -/
def auth_dependency (token : Option String) (tokens : List String) :
    Except ApiError Unit :=
  match token with
  | none => .error (.http 401 "Unauthorized")
  | some t =>
      if t = "" ∨ t ∉ tokens then .error (.http 401 "Unauthorized")
      else .ok ()

/-- Hex digit for internal-id rendering (lowercase, as `str(ObjectId)`). -/
def hexDigitChar (n : Nat) : Char :=
  if n < 10 then Char.ofNat (48 + n) else Char.ofNat (87 + n)

/-- Fixed-width big-endian hex rendering. -/
def hexChars : Nat → Nat → List Char
  | 0, _ => []
  | k + 1, n => hexChars k (n / 16) ++ [hexDigitChar (n % 16)]

/-- Modelled from the spec: the Document Store Adapter (`database.py`, not
under `src/`) assigns each inserted record a fresh store id, rendered
publicly as a 24-character lowercase hex string. -/
def freshId (n : Nat) : String :=
  String.mk (hexChars 24 n)

/-- Hexadecimal-character test, both cases, as accepted by `bson.ObjectId`. -/
def isHexDigitChar (c : Char) : Bool :=
  c.isDigit || (decide ('a' ≤ c) && decide (c ≤ 'f')) ||
    (decide ('A' ≤ c) && decide (c ≤ 'F'))

/-- Modelled from the bson library (an external collaborator of `main.py`):
`ObjectId(s)` for a string argument accepts exactly 24 hexadecimal
characters (compared case-insensitively, canonicalised here to lowercase)
and raises `InvalidId` for every other string. -/
def parseObjectId (s : String) : Option String :=
  if s.length = 24 ∧ s.data.all isHexDigitChar then some (pyLower s) else none

/-- A `$set` patch over product fields: `some v` means the field is set. -/
structure ProductPatch where
  name : Option String
  description : Option String
  images : Option (List String)
  price : Option Int
  discount_percent : Option Int
  sizes : Option (List String)
  offer_minutes : Option Int
  is_active : Option Bool
deriving Repr, DecidableEq

/-- Field-wise application of a `$set` patch to a stored product. -/
def applyPatch (u : ProductPatch) (p : Product) : Product where
  name := u.name.getD p.name
  description := u.description <|> p.description
  images := u.images.getD p.images
  price := u.price.getD p.price
  discount_percent := u.discount_percent.getD p.discount_percent
  sizes := u.sizes.getD p.sizes
  offer_minutes := u.offer_minutes <|> p.offer_minutes
  is_active := u.is_active.getD p.is_active

/-- `update_one` on the product collection: patch the first record whose id
matches, returning the new collection and the matched count. -/
def updateFirst (oid : String) (u : ProductPatch) :
    List (String × Product) → List (String × Product) × Nat
  | [] => ([], 0)
  | (i, p) :: rest =>
      if i = oid then ((i, applyPatch u p) :: rest, 1)
      else
        let r := updateFirst oid u rest
        ((i, p) :: r.1, r.2)

/-- `delete_one` on the product collection: remove the first record whose id
matches, returning the new collection and the deleted count. -/
def deleteFirst (oid : String) :
    List (String × Product) → List (String × Product) × Nat
  | [] => ([], 0)
  | (i, p) :: rest =>
      if i = oid then (rest, 1)
      else
        let r := deleteFirst oid rest
        ((i, p) :: r.1, r.2)

/-- Modelled from the spec: `create_document` of the Document Store Adapter
(`database.py`, not under `src/`): `insert(collection, record) -> id`, here
for the product collection. -/
def create_document_product (d : Db) (p : Product) : Db × String :=
  let i := freshId d.nextId
  let d' : Db := { d with products := d.products ++ [(i, p)], nextId := d.nextId + 1 }
  (d', i)

/-- Modelled from the spec: `get_documents` of the Document Store Adapter
(`database.py`, not under `src/`): `findMany(collection, {}) -> all records`,
here for the product collection. -/
def get_documents_product (d : Db) : List (String × Product) :=
  d.products

/-- `ensure_default_settings`: when the store is configured and holds no
settings document, insert the default one. -/
def ensure_default_settings (hash : String → String) (s : ServerState) :
    ServerState :=
  match s.db with
  | none => s
  | some d =>
      match d.settings with
      | some _ => s
      | none =>
          let doc : SettingsDoc :=
            ⟨some DEFAULT_USERNAME, some (hash DEFAULT_PASSWORD),
              some "viyan@upi", none⟩
          let d' : Db := { d with settings := some doc }
          { s with db := some d' }

/-- The body of `POST /api/admin/login`. -/
structure LoginRequest where
  username : String
  password : String
deriving Repr, DecidableEq

/-- The comparison `admin_login` performs against the stored settings
document: `doc` exists, usernames agree after `strip().lower()`, and the
digest of the submitted password equals the stored `password_hash`. -/
def matchesStored (hash : String → String) (payload : LoginRequest)
    (s : ServerState) : Bool :=
  match s.db with
  | none => false
  | some d =>
      match d.settings with
      | none => false
      | some doc =>
          decide (canon payload.username = canon (doc.username.getD "") ∧
            some (hash payload.password) = doc.password_hash)

/-- The comparison `admin_login` performs in its fallback branch: the
canonicalised submitted username equals `DEFAULT_USERNAME` and the submitted
password equals `DEFAULT_PASSWORD` exactly. -/
def matchesDefault (payload : LoginRequest) : Bool :=
  decide (canon payload.username = DEFAULT_USERNAME ∧
    payload.password = DEFAULT_PASSWORD)

/-- Token issuance on successful login: digest of username, password and the
current-time string, added to the registry and returned. -/
def issueToken (hash : String → String) (now : String)
    (payload : LoginRequest) (s : ServerState) :
    ServerState × Except ApiError String :=
  let token := hash (payload.username ++ payload.password ++ now)
  ({ s with tokens := token :: s.tokens }, .ok token)

/-- `admin_login` from `main.py`.  `hash` is the SHA-256 digest and `now` the
rendering of `datetime.utcnow()` used in token generation.  First ensures
default settings, then checks the submitted pair against the stored document
(canonicalised username, digest-compared password); afterwards — regardless
of store state — checks the pair against the default credentials; otherwise
401. -/
def admin_login (hash : String → String) (now : String)
    (payload : LoginRequest) (s : ServerState) :
    ServerState × Except ApiError String :=
  if matchesStored hash payload (ensure_default_settings hash s) then
    issueToken hash now payload (ensure_default_settings hash s)
  else if matchesDefault payload then
    issueToken hash now payload (ensure_default_settings hash s)
  else
    (ensure_default_settings hash s, .error (.http 401 "Invalid credentials"))

/-- `GET /api/admin/settings`: auth, store readiness, then return the
settings document through the `AdminSettings` response model. -/
def get_settings (token : String) (s : ServerState) :
    ServerState × Except ApiError AdminSettings :=
  match auth_dependency (some token) s.tokens with
  | .error e => (s, .error e)
  | .ok _ =>
      match s.db with
      | none => (s, .error (.http 503 "Database unavailable"))
      | some d =>
          match d.settings with
          | none => (s, .error (.http 404 "Settings not found"))
          | some doc =>
              match AdminSettings.ofDoc doc with
              | .error m => (s, .error (.exn m))
              | .ok a => (s, .ok a)

/-- The body of `POST /api/admin/settings`: all fields optional. -/
structure UpdateSettings where
  username : Option String
  password : Option String
  upi_id : Option String
  logo_url : Option String
deriving Repr, DecidableEq

/-- A `$set` patch over settings fields. -/
structure SettingsPatch where
  username : Option String
  password_hash : Option String
  upi_id : Option String
  logo_url : Option String
deriving Repr, DecidableEq

/-- Field-wise application of a settings `$set` patch. -/
def applySettingsPatch (u : SettingsPatch) (doc : SettingsDoc) : SettingsDoc where
  username := u.username <|> doc.username
  password_hash := u.password_hash <|> doc.password_hash
  upi_id := u.upi_id <|> doc.upi_id
  logo_url := u.logo_url <|> doc.logo_url

/-- `update_settings` from `main.py`: auth, store readiness, collect the
provided fields (`password` digested to `password_hash`), return
`updated: false` without a store write when none is provided, otherwise
perform the upsert `$set` on the singleton filter. -/
def update_settings (hash : String → String) (payload : UpdateSettings)
    (token : String) (s : ServerState) :
    ServerState × Except ApiError Bool :=
  match auth_dependency (some token) s.tokens with
  | .error e => (s, .error e)
  | .ok _ =>
      match s.db with
      | none => (s, .error (.http 503 "Database unavailable"))
      | some d =>
          let updates : SettingsPatch :=
            ⟨payload.username, payload.password.map hash,
              payload.upi_id, payload.logo_url⟩
          if updates = ⟨none, none, none, none⟩ then (s, .ok false)
          else
            let doc' :=
              match d.settings with
              | some doc => applySettingsPatch updates doc
              | none =>
                  SettingsDoc.mk updates.username updates.password_hash
                    updates.upi_id updates.logo_url
            ({ s with db := some { d with settings := some doc' } }, .ok true)

/-- The raw JSON body of a product create/update request: `none` marks a
field that is absent from (or null in) the request body. -/
structure RawProductIn where
  name : Option String
  description : Option String
  images : Option (List String)
  price : Option Int
  discount_percent : Option Int
  sizes : Option (List String)
  offer_minutes : Option Int
  is_active : Option Bool
deriving Repr, DecidableEq

/-- The parsed `ProductIn` request model of `main.py`: `name` and `price`
required, `discount_percent` defaults to 0, `is_active` to true, the rest
optional with default `None`.  No numeric-range constraints are declared. -/
structure ProductIn where
  name : String
  description : Option String
  images : Option (List String)
  price : Int
  discount_percent : Int
  sizes : Option (List String)
  offer_minutes : Option Int
  is_active : Bool
deriving Repr, DecidableEq

/-- FastAPI body validation against `ProductIn`: a missing required field is
rejected with a 422 client error before the route handler runs; defaults are
filled for the omitted optional fields. -/
def parseProductIn (r : RawProductIn) : Except ApiError ProductIn :=
  match r.name, r.price with
  | some n, some pr =>
      .ok ⟨n, r.description, r.images, pr, r.discount_percent.getD 0,
        r.sizes, r.offer_minutes, r.is_active.getD true⟩
  | _, _ => .error (.http 422 "Unprocessable Entity")

/-- Python `x or dflt` on an optional list: `None` and the empty list are
both falsy and give the default. -/
def orList (x : Option (List String)) (dflt : List String) : List String :=
  match x with
  | none => dflt
  | some l => if l = [] then dflt else l

/-- `create_product` from `main.py`: auth, store readiness, construct the
`Product` record (applying `or`-defaults for `images` and `sizes`; a
pydantic range violation here is an uncaught exception), insert it and
return the new id. -/
def create_product (payload : ProductIn) (token : String) (s : ServerState) :
    ServerState × Except ApiError String :=
  match auth_dependency (some token) s.tokens with
  | .error e => (s, .error e)
  | .ok _ =>
      match s.db with
      | none => (s, .error (.http 503 "Database unavailable"))
      | some d =>
          match Product.build payload.name payload.description
              (orList payload.images []) payload.price
              payload.discount_percent
              (orList payload.sizes ["XS", "S", "M", "L", "XL"])
              payload.offer_minutes payload.is_active with
          | .error m => (s, .error (.exn m))
          | .ok prod =>
              let r := create_document_product d prod
              ({ s with db := some r.1 }, .ok r.2)

/-- The dict comprehension of `update_product`: keep exactly the fields of
`payload.dict()` whose value is not `None` — the required fields `name` and
`price` and the defaulted fields `discount_percent` and `is_active` are
always kept. -/
def updatesOf (payload : ProductIn) : ProductPatch :=
  ⟨some payload.name, payload.description, payload.images, some payload.price,
    some payload.discount_percent, payload.sizes, payload.offer_minutes,
    some payload.is_active⟩

/-- `update_product` from `main.py`: auth, store readiness, parse the public
id (`ObjectId` raises on a malformed string), `$set` the non-`None` fields
on the matched record, 404 when nothing matched. -/
def update_product (product_id : String) (payload : ProductIn)
    (token : String) (s : ServerState) : ServerState × Except ApiError Bool :=
  match auth_dependency (some token) s.tokens with
  | .error e => (s, .error e)
  | .ok _ =>
      match s.db with
      | none => (s, .error (.http 503 "Database unavailable"))
      | some d =>
          match parseObjectId product_id with
          | none => (s, .error (.exn "InvalidId"))
          | some oid =>
              let r := updateFirst oid (updatesOf payload) d.products
              if r.2 = 0 then (s, .error (.http 404 "Product not found"))
              else ({ s with db := some { d with products := r.1 } }, .ok true)

/-- `delete_product` from `main.py`: auth, store readiness, parse the public
id (`ObjectId` raises on a malformed string), delete the matched record,
404 when nothing was deleted. -/
def delete_product (product_id : String) (token : String) (s : ServerState) :
    ServerState × Except ApiError Bool :=
  match auth_dependency (some token) s.tokens with
  | .error e => (s, .error e)
  | .ok _ =>
      match s.db with
      | none => (s, .error (.http 503 "Database unavailable"))
      | some d =>
          match parseObjectId product_id with
          | none => (s, .error (.exn "InvalidId"))
          | some oid =>
              let r := deleteFirst oid d.products
              if r.2 = 0 then (s, .error (.http 404 "Product not found"))
              else ({ s with db := some { d with products := r.1 } }, .ok true)

/-- A product record in public form: the internal `_id` renamed to the
public `id` string, all other fields verbatim (`to_public` in `main.py`). -/
structure PublicProduct where
  id : String
  name : String
  description : Option String
  images : List String
  price : Int
  discount_percent : Int
  sizes : List String
  offer_minutes : Option Int
  is_active : Bool
deriving Repr, DecidableEq

/-- `to_public` from `main.py`. -/
def to_public (i : String) (p : Product) : PublicProduct :=
  ⟨i, p.name, p.description, p.images, p.price, p.discount_percent, p.sizes,
    p.offer_minutes, p.is_active⟩

/-- `list_products` from `main.py` (`GET /api/products`): empty sequence when
the store is not configured, otherwise all records in public form. -/
def list_products (s : ServerState) : List PublicProduct :=
  match s.db with
  | none => []
  | some d => (get_documents_product d).map fun ip => to_public ip.1 ip.2

/-- The full `POST /api/admin/products` route: FastAPI body validation, then
the handler. -/
def create_product_route (raw : RawProductIn) (token : String)
    (s : ServerState) : ServerState × Except ApiError String :=
  match parseProductIn raw with
  | .error e => (s, .error e)
  | .ok payload => create_product payload token s

/-- The full `PUT /api/admin/products/{product_id}` route: FastAPI body
validation, then the handler. -/
def update_product_route (product_id : String) (raw : RawProductIn)
    (token : String) (s : ServerState) : ServerState × Except ApiError Bool :=
  match parseProductIn raw with
  | .error e => (s, .error e)
  | .ok payload => update_product product_id payload token s

/-! ## Helper lemmas -/

theorem auth_dependency_ok {t : String} {toks : List String}
    (h1 : t ≠ "") (h2 : t ∈ toks) :
    auth_dependency (some t) toks = .ok () := by
  show (if t = "" ∨ t ∉ toks then Except.error (ApiError.http 401 "Unauthorized")
    else Except.ok ()) = Except.ok ()
  rw [if_neg]
  push_neg
  exact ⟨h1, h2⟩

theorem auth_dependency_notMem {t : String} {toks : List String}
    (h : t ∉ toks) :
    auth_dependency (some t) toks = .error (.http 401 "Unauthorized") := by
  show (if t = "" ∨ t ∉ toks then Except.error (ApiError.http 401 "Unauthorized")
    else Except.ok ()) = Except.error (ApiError.http 401 "Unauthorized")
  rw [if_pos (Or.inr h)]

theorem updateFirst_notMem {oid : String} {u : ProductPatch} :
    ∀ {ps : List (String × Product)}, oid ∉ ps.map Prod.fst →
      updateFirst oid u ps = (ps, 0) := by
  intro ps
  induction ps with
  | nil => intro _; rfl
  | cons hd tl ih =>
      intro h
      simp only [List.map_cons, List.mem_cons] at h
      push_neg at h
      unfold updateFirst
      rw [if_neg (fun he => h.1 he.symm), ih h.2]

theorem updateFirst_found {oid : String} {u : ProductPatch} {p : Product}
    {post : List (String × Product)} :
    ∀ {pre : List (String × Product)}, oid ∉ pre.map Prod.fst →
      updateFirst oid u (pre ++ (oid, p) :: post) =
        (pre ++ (oid, applyPatch u p) :: post, 1) := by
  intro pre
  induction pre with
  | nil => intro _; simp [updateFirst]
  | cons hd tl ih =>
      intro h
      simp only [List.map_cons, List.mem_cons] at h
      push_neg at h
      simp only [List.cons_append]
      unfold updateFirst
      rw [if_neg (fun he => h.1 he.symm), ih h.2]

theorem deleteFirst_notMem {oid : String} :
    ∀ {ps : List (String × Product)}, oid ∉ ps.map Prod.fst →
      deleteFirst oid ps = (ps, 0) := by
  intro ps
  induction ps with
  | nil => intro _; rfl
  | cons hd tl ih =>
      intro h
      simp only [List.map_cons, List.mem_cons] at h
      push_neg at h
      unfold deleteFirst
      rw [if_neg (fun he => h.1 he.symm), ih h.2]

theorem deleteFirst_found {oid : String} {p : Product}
    {post : List (String × Product)} :
    ∀ {pre : List (String × Product)}, oid ∉ pre.map Prod.fst →
      deleteFirst oid (pre ++ (oid, p) :: post) = (pre ++ post, 1) := by
  intro pre
  induction pre with
  | nil => intro _; simp [deleteFirst]
  | cons hd tl ih =>
      intro h
      simp only [List.map_cons, List.mem_cons] at h
      push_neg at h
      simp only [List.cons_append]
      unfold deleteFirst
      rw [if_neg (fun he => h.1 he.symm), ih h.2]

theorem ensure_default_settings_of_settings {hash : String → String}
    {s : ServerState} {d : Db} {doc : SettingsDoc}
    (hdb : s.db = some d) (hset : d.settings = some doc) :
    ensure_default_settings hash s = s := by
  unfold ensure_default_settings
  rw [hdb]
  simp only [hset]

theorem ensure_default_settings_tokens (hash : String → String)
    (s : ServerState) :
    (ensure_default_settings hash s).tokens = s.tokens := by
  unfold ensure_default_settings
  cases hdb : s.db with
  | none => rfl
  | some d =>
      cases hset : d.settings with
      | none => simp only [hset]
      | some doc => simp only [hset]

/-! ## Shared concrete fixtures for witnesses and counterexamples -/

/-- A concrete stand-in for the SHA-256 digest used in closed statements:
prepends a marker character, hence injective and never empty (as a real hex
digest also never is). -/
def demoHash : String → String := fun s => String.mk ('#' :: s.data)

/-- A stored settings document whose credentials differ from the defaults. -/
def aliceDoc : SettingsDoc :=
  ⟨some "alice", some (demoHash "alicepw"), some "u@upi", none⟩

/-- A database holding `aliceDoc`. -/
def dbAlice : Db := ⟨some aliceDoc, [], 0⟩

/-- A server state with `dbAlice` and no issued tokens. -/
def stAlice : ServerState := ⟨some dbAlice, []⟩

/-- A concrete well-formed public id (24 lowercase hex characters). -/
def pid0 : String := String.mk (hexChars 24 5)

/-- A stored product with a nonzero discount. -/
def prod50 : Product := ⟨"shirt", none, ["img"], 100, 50, ["M"], none, true⟩

/-- A database holding `prod50` under id `pid0`. -/
def dbProd : Db := ⟨some aliceDoc, [(pid0, prod50)], 6⟩

/-- A server state with `dbProd` and one issued token. -/
def stProd : ServerState := ⟨some dbProd, ["tok"]⟩

/-! ## Claims -/

/-- C7: an authenticated settings update in which none of the optional
fields is provided returns `updated: false` and leaves the whole server
state (in particular the stored settings document) unchanged. -/
theorem update_settings_noop (hash : String → String) (token : String)
    (s : ServerState) (d : Db) (hne : token ≠ "") (hmem : token ∈ s.tokens)
    (hdb : s.db = some d) :
    update_settings hash ⟨none, none, none, none⟩ token s = (s, .ok false) := by
  unfold update_settings
  rw [auth_dependency_ok hne hmem, hdb]
  rfl

/-- C7 witness: the no-field settings update at a concrete authenticated
state returns `updated: false` and changes nothing. -/
theorem update_settings_noop_witness :
    update_settings demoHash ⟨none, none, none, none⟩ "tok" stProd =
      (stProd, .ok false) :=
  update_settings_noop demoHash "tok" stProd dbProd (by decide)
    (by simp [stProd]) rfl

/-- C5: when the database handle is not configured, the public product
listing returns the empty sequence, and each authenticated write route
(settings update, product create, product update, product delete) fails
with status 503 without changing the state. -/
theorem store_unavailable_degradation (hash : String → String)
    (payloadS : UpdateSettings) (payloadP : ProductIn) (pid token : String)
    (s : ServerState) (hdb : s.db = none) (hne : token ≠ "")
    (hmem : token ∈ s.tokens) :
    list_products s = [] ∧
    update_settings hash payloadS token s =
      (s, .error (.http 503 "Database unavailable")) ∧
    create_product payloadP token s =
      (s, .error (.http 503 "Database unavailable")) ∧
    update_product pid payloadP token s =
      (s, .error (.http 503 "Database unavailable")) ∧
    delete_product pid token s =
      (s, .error (.http 503 "Database unavailable")) := by
  refine ⟨?_, ?_, ?_, ?_, ?_⟩
  · unfold list_products; rw [hdb]
  · unfold update_settings; rw [auth_dependency_ok hne hmem, hdb]
  · unfold create_product; rw [auth_dependency_ok hne hmem, hdb]
  · unfold update_product; rw [auth_dependency_ok hne hmem, hdb]
  · unfold delete_product; rw [auth_dependency_ok hne hmem, hdb]

/-- C5 witness: degradation at a concrete unconfigured-store state with a
valid token. -/
theorem store_unavailable_degradation_witness :
    list_products ⟨none, ["tok"]⟩ = [] ∧
    update_settings demoHash ⟨none, none, none, none⟩ "tok" ⟨none, ["tok"]⟩ =
      (⟨none, ["tok"]⟩, .error (.http 503 "Database unavailable")) ∧
    create_product ⟨"k", none, none, 9, 0, none, none, true⟩ "tok"
        ⟨none, ["tok"]⟩ =
      (⟨none, ["tok"]⟩, .error (.http 503 "Database unavailable")) ∧
    update_product "x" ⟨"k", none, none, 9, 0, none, none, true⟩ "tok"
        ⟨none, ["tok"]⟩ =
      (⟨none, ["tok"]⟩, .error (.http 503 "Database unavailable")) ∧
    delete_product "x" "tok" ⟨none, ["tok"]⟩ =
      (⟨none, ["tok"]⟩, .error (.http 503 "Database unavailable")) :=
  store_unavailable_degradation demoHash ⟨none, none, none, none⟩
    ⟨"k", none, none, 9, 0, none, none, true⟩ "x" "tok" ⟨none, ["tok"]⟩
    rfl (by decide) (by simp)

/-- Case analysis on `admin_login`: it either issues a token (via one of the
two credential checks) or rejects with 401, leaving only the
`ensure_default_settings` effect. -/
theorem admin_login_cases (hash : String → String) (now : String)
    (payload : LoginRequest) (s : ServerState) :
    admin_login hash now payload s =
        issueToken hash now payload (ensure_default_settings hash s) ∨
      admin_login hash now payload s =
        (ensure_default_settings hash s,
          .error (.http 401 "Invalid credentials")) := by
  unfold admin_login
  split
  · exact Or.inl rfl
  · split
    · exact Or.inl rfl
    · exact Or.inr rfl

/-- C1 counterexample: with the store available and holding a settings
document whose credentials are NOT the defaults, submitting the default
credentials is invalid in the claim's sense (it matches neither the stored
document, nor — the store being neither empty nor unavailable — the default
clause), yet login succeeds and registers a token instead of failing
with 401. -/
theorem login_default_backdoor_cex :
    matchesStored demoHash ⟨DEFAULT_USERNAME, DEFAULT_PASSWORD⟩ stAlice
        = false ∧
    stAlice.db = some dbAlice ∧ dbAlice.settings = some aliceDoc ∧
    (admin_login demoHash "T" ⟨DEFAULT_USERNAME, DEFAULT_PASSWORD⟩ stAlice).2
        = .ok "#viyan fashion worldviyan@2023T" ∧
    (admin_login demoHash "T" ⟨DEFAULT_USERNAME, DEFAULT_PASSWORD⟩
        stAlice).1.tokens = ["#viyan fashion worldviyan@2023T"] :=
  ⟨rfl, rfl, rfl, rfl, rfl⟩

/-- C1 (amended): a login whose credentials match neither the stored
settings document (after default initialisation) nor the hard-coded default
credentials — the default fallback applies regardless of store state —
fails with 401 and adds no token to the registry. -/
theorem admin_login_invalid_401 (hash : String → String) (now : String)
    (payload : LoginRequest) (s : ServerState)
    (hstored :
      matchesStored hash payload (ensure_default_settings hash s) = false)
    (hdef : matchesDefault payload = false) :
    admin_login hash now payload s =
      (ensure_default_settings hash s,
        .error (.http 401 "Invalid credentials")) ∧
    (admin_login hash now payload s).1.tokens = s.tokens := by
  have h1 : admin_login hash now payload s =
      (ensure_default_settings hash s,
        .error (.http 401 "Invalid credentials")) := by
    unfold admin_login
    rw [hstored, hdef]
    simp
  exact ⟨h1, by rw [h1]; exact ensure_default_settings_tokens hash s⟩

/-- C1 witness: a garbage credential pair against an unconfigured store is
rejected with 401 and the registry stays empty. -/
theorem admin_login_invalid_401_witness :
    admin_login demoHash "T" ⟨"x", "y"⟩ ⟨none, []⟩ =
      (ensure_default_settings demoHash ⟨none, []⟩,
        .error (.http 401 "Invalid credentials")) ∧
    (admin_login demoHash "T" ⟨"x", "y"⟩ ⟨none, []⟩).1.tokens = [] :=
  admin_login_invalid_401 demoHash "T" ⟨"x", "y"⟩ ⟨none, []⟩ rfl (by decide)

/-- A settings document keeping the default username but carrying the
digest of a changed password — the state after an admin rotates only the
password through the settings-update route. -/
def changedDoc : SettingsDoc :=
  ⟨some DEFAULT_USERNAME, some (demoHash "changed"), some "viyan@upi", none⟩

/-- A server state holding `changedDoc` and no issued tokens. -/
def stChanged : ServerState := ⟨some (Db.mk (some changedDoc) [] 0), []⟩

/-- C9 counterexample: the password comparison of `admin_login` is NOT
exact.  With the stored document keeping the default username but a
CHANGED password hash, submitting the old default password — whose digest
differs from the stored hash, so it does not match the stored credentials —
still logs in and issues a token, through the unconditional
default-credentials fallback. -/
theorem login_password_not_exact_cex :
    stChanged.db = some (Db.mk (some changedDoc) [] 0) ∧
    changedDoc.password_hash = some (demoHash "changed") ∧
    demoHash "viyan@2023" ≠ demoHash "changed" ∧
    matchesStored demoHash ⟨DEFAULT_USERNAME, "viyan@2023"⟩ stChanged
      = false ∧
    (admin_login demoHash "T" ⟨DEFAULT_USERNAME, "viyan@2023"⟩ stChanged).2 =
      .ok (demoHash (DEFAULT_USERNAME ++ "viyan@2023" ++ "T")) :=
  ⟨rfl, rfl, by decide, rfl, rfl⟩

/-- C9 (amended): the username comparison of `admin_login` is performed
after `strip().lower()` — against the stored username (both sides
canonicalised) and, in the fallback branch, against the default username —
so a submitted username agreeing up to letter case and surrounding
whitespace logs in when the password matches that branch's reference: the
stored branch compares digests exactly, the default branch (reachable in
every store state, including an unconfigured one) compares the password
string exactly.  Exactness holds only per branch: for an injective digest
a password not digest-matching the stored hash fails the stored check, and
yields 401 only when the pair also misses the default fallback. -/
theorem admin_login_canonical_username (hash : String → String)
    (now u pw : String) (s : ServerState) :
    (∀ (d : Db) (doc : SettingsDoc) (p0 : String),
      s.db = some d → d.settings = some doc →
      canon u = canon (doc.username.getD "") →
      doc.password_hash = some (hash p0) → pw = p0 →
      (admin_login hash now ⟨u, pw⟩ s).2 = .ok (hash (u ++ pw ++ now)) ∧
        hash (u ++ pw ++ now) ∈ (admin_login hash now ⟨u, pw⟩ s).1.tokens) ∧
    (canon u = DEFAULT_USERNAME → pw = DEFAULT_PASSWORD →
      (admin_login hash now ⟨u, pw⟩ s).2 = .ok (hash (u ++ pw ++ now)) ∧
        hash (u ++ pw ++ now) ∈ (admin_login hash now ⟨u, pw⟩ s).1.tokens) ∧
    (∀ (d : Db) (doc : SettingsDoc) (p0 : String),
      s.db = some d → d.settings = some doc →
      doc.password_hash = some (hash p0) →
      Function.Injective hash → pw ≠ p0 → matchesDefault ⟨u, pw⟩ = false →
      (admin_login hash now ⟨u, pw⟩ s).2 =
        .error (.http 401 "Invalid credentials")) := by
  refine ⟨?_, ?_, ?_⟩
  · intro d doc p0 hdb hset huser hph hpw
    subst hpw
    have hens : ensure_default_settings hash s = s :=
      ensure_default_settings_of_settings hdb hset
    have hms : matchesStored hash ⟨u, pw⟩ s = true := by
      unfold matchesStored
      rw [hdb]
      simp only [hset]
      simp [huser, hph]
    unfold admin_login
    rw [hens, hms]
    simp [issueToken]
  · intro hu hpw
    have hdef : matchesDefault ⟨u, pw⟩ = true := by
      unfold matchesDefault
      simp [hu, hpw]
    unfold admin_login
    split
    · simp [issueToken]
    · simp [hdef, issueToken]
  · intro d doc p0 hdb hset hph hinj hnep hdef
    have hens : ensure_default_settings hash s = s :=
      ensure_default_settings_of_settings hdb hset
    have hms : matchesStored hash ⟨u, pw⟩ s = false := by
      unfold matchesStored
      rw [hdb]
      simp only [hset]
      simp only [hph, decide_eq_false_iff_not]
      intro hand
      exact hnep (hinj (Option.some.inj hand.2))
    unfold admin_login
    rw [hens, hms, hdef]
    simp

/-- C9 witness: the three branches at concrete inputs — `"  ALICE "` with
the exact stored password logs in against the stored `"alice"`;
`"  VIYAN FASHION WORLD "` with the default password logs in with the
store unconfigured; and against the stored `alice` document a wrong
password with a non-default pair gets 401, the digest being injective. -/
theorem admin_login_canonical_username_witness :
    ((admin_login demoHash "T" ⟨"  ALICE ", "alicepw"⟩ stAlice).2 =
        .ok (demoHash ("  ALICE " ++ "alicepw" ++ "T")) ∧
      demoHash ("  ALICE " ++ "alicepw" ++ "T") ∈
        (admin_login demoHash "T" ⟨"  ALICE ", "alicepw"⟩
          stAlice).1.tokens) ∧
    ((admin_login demoHash "T"
          ⟨"  VIYAN FASHION WORLD ", "viyan@2023"⟩ ⟨none, []⟩).2 =
        .ok (demoHash ("  VIYAN FASHION WORLD " ++ "viyan@2023" ++ "T")) ∧
      demoHash ("  VIYAN FASHION WORLD " ++ "viyan@2023" ++ "T") ∈
        (admin_login demoHash "T"
          ⟨"  VIYAN FASHION WORLD ", "viyan@2023"⟩ ⟨none, []⟩).1.tokens) ∧
    (admin_login demoHash "T" ⟨"alice", "wrong"⟩ stAlice).2 =
      .error (.http 401 "Invalid credentials") :=
  ⟨(admin_login_canonical_username demoHash "T" "  ALICE " "alicepw"
      stAlice).1 dbAlice aliceDoc "alicepw" rfl rfl (by decide) rfl rfl,
    (admin_login_canonical_username demoHash "T" "  VIYAN FASHION WORLD "
      "viyan@2023" ⟨none, []⟩).2.1 (by decide) rfl,
    (admin_login_canonical_username demoHash "T" "alice" "wrong"
      stAlice).2.2 dbAlice aliceDoc "alicepw" rfl rfl rfl
      (fun a b h => by
        have h3 : a.data = b.data := by
          have h2 : '#' :: a.data = '#' :: b.data := congrArg String.data h
          injection h2
        cases a
        cases b
        simp only at h3
        rw [h3])
      (by decide) (by decide)⟩

/-- The settings-read route never touches the token registry. -/
theorem get_settings_tokens (t : String) (s : ServerState) :
    (get_settings t s).1.tokens = s.tokens := by
  unfold get_settings
  repeat' split
  all_goals rfl

/-- The settings-update route never touches the token registry. -/
theorem update_settings_tokens (hash : String → String)
    (pS : UpdateSettings) (t : String) (s : ServerState) :
    (update_settings hash pS t s).1.tokens = s.tokens := by
  unfold update_settings
  repeat' split
  all_goals (try rfl)
  all_goals (simp only []; split <;> rfl)

/-- The product-create route never touches the token registry. -/
theorem create_product_tokens (pP : ProductIn) (t : String)
    (s : ServerState) :
    (create_product pP t s).1.tokens = s.tokens := by
  unfold create_product
  repeat' split
  all_goals rfl

/-- The product-update route never touches the token registry. -/
theorem update_product_tokens (pid : String) (pP : ProductIn) (t : String)
    (s : ServerState) :
    (update_product pid pP t s).1.tokens = s.tokens := by
  unfold update_product
  repeat' split
  all_goals (try rfl)
  all_goals (simp only []; try rfl)
  all_goals (split <;> rfl)

/-- The product-delete route never touches the token registry. -/
theorem delete_product_tokens (pid t : String) (s : ServerState) :
    (delete_product pid t s).1.tokens = s.tokens := by
  unfold delete_product
  repeat' split
  all_goals (try rfl)
  all_goals (simp only []; try rfl)
  all_goals (split <;> rfl)

/-- C6: tokens behave as a grow-only registry.  A token returned by a
successful login is non-falsy and registered, hence passes the shared auth
gate afterwards; no route ever removes tokens (login only adds, every other
route leaves the registry unchanged); a string not in the registry is
rejected with 401 by every protected route; and a registered non-empty
string is never rejected as unauthorized by any protected route.  The digest
is assumed never to produce the empty string (a SHA-256 hex digest has 64
characters). -/
theorem token_registry_lifecycle (hash : String → String) (now : String)
    (payload : LoginRequest) (pS : UpdateSettings) (pP : ProductIn)
    (pid t : String) (s : ServerState) (hne : ∀ x, hash x ≠ "") :
    (∀ tk, (admin_login hash now payload s).2 = .ok tk →
      auth_dependency (some tk) (admin_login hash now payload s).1.tokens =
        .ok ()) ∧
    s.tokens ⊆ (admin_login hash now payload s).1.tokens ∧
    (get_settings t s).1.tokens = s.tokens ∧
    (update_settings hash pS t s).1.tokens = s.tokens ∧
    (create_product pP t s).1.tokens = s.tokens ∧
    (update_product pid pP t s).1.tokens = s.tokens ∧
    (delete_product pid t s).1.tokens = s.tokens ∧
    (t ∉ s.tokens →
      (get_settings t s).2 = .error (.http 401 "Unauthorized") ∧
      (update_settings hash pS t s).2 = .error (.http 401 "Unauthorized") ∧
      (create_product pP t s).2 = .error (.http 401 "Unauthorized") ∧
      (update_product pid pP t s).2 = .error (.http 401 "Unauthorized") ∧
      (delete_product pid t s).2 = .error (.http 401 "Unauthorized")) ∧
    (t ≠ "" → t ∈ s.tokens →
      (get_settings t s).2 ≠ .error (.http 401 "Unauthorized") ∧
      (update_settings hash pS t s).2 ≠ .error (.http 401 "Unauthorized") ∧
      (create_product pP t s).2 ≠ .error (.http 401 "Unauthorized") ∧
      (update_product pid pP t s).2 ≠ .error (.http 401 "Unauthorized") ∧
      (delete_product pid t s).2 ≠ .error (.http 401 "Unauthorized")) := by
  refine ⟨?_, ?_, get_settings_tokens t s, update_settings_tokens hash pS t s,
    create_product_tokens pP t s, update_product_tokens pid pP t s,
    delete_product_tokens pid t s, ?_, ?_⟩
  · intro tk hok
    rcases admin_login_cases hash now payload s with h | h
    · rw [h] at hok ⊢
      simp only [issueToken] at hok ⊢
      rw [Except.ok.injEq] at hok
      subst hok
      exact auth_dependency_ok (hne _) (List.mem_cons_self _ _)
    · rw [h] at hok
      exact absurd hok (by simp)
  · rcases admin_login_cases hash now payload s with h | h
    · rw [h]
      simp only [issueToken]
      intro x hx
      rw [ensure_default_settings_tokens]
      exact List.mem_cons_of_mem _ hx
    · rw [h]
      intro x hx
      rw [ensure_default_settings_tokens]
      exact hx
  · intro hmem
    have ha : auth_dependency (some t) s.tokens =
        .error (.http 401 "Unauthorized") := auth_dependency_notMem hmem
    refine ⟨?_, ?_, ?_, ?_, ?_⟩
    · unfold get_settings; rw [ha]
    · unfold update_settings; rw [ha]
    · unfold create_product; rw [ha]
    · unfold update_product; rw [ha]
    · unfold delete_product; rw [ha]
  · intro h1 h2
    have ha := auth_dependency_ok h1 h2
    refine ⟨?_, ?_, ?_, ?_, ?_⟩
    · unfold get_settings; rw [ha]
      repeat' split
      all_goals simp_all
    · unfold update_settings; rw [ha]; repeat' split
      all_goals (try (simp only []; repeat' split))
      all_goals simp_all
    · unfold create_product; rw [ha]
      repeat' split
      all_goals simp_all
    · unfold update_product; rw [ha]; repeat' split
      all_goals (try (simp only []; repeat' split))
      all_goals simp_all
    · unfold delete_product; rw [ha]; repeat' split
      all_goals (try (simp only []; repeat' split))
      all_goals simp_all

/-- C6 witness: the lifecycle conjunction at a concrete state holding one
issued token, with the concrete digest. -/
theorem token_registry_lifecycle_witness :
    (∀ tk,
      (admin_login demoHash "T" ⟨"u", "p"⟩ stProd).2 = .ok tk →
      auth_dependency (some tk)
        (admin_login demoHash "T" ⟨"u", "p"⟩ stProd).1.tokens = .ok ()) ∧
    stProd.tokens ⊆ (admin_login demoHash "T" ⟨"u", "p"⟩ stProd).1.tokens ∧
    (get_settings "tok" stProd).1.tokens = stProd.tokens ∧
    (update_settings demoHash ⟨none, none, none, none⟩ "tok"
      stProd).1.tokens = stProd.tokens ∧
    (create_product ⟨"k", none, none, 9, 0, none, none, true⟩ "tok"
      stProd).1.tokens = stProd.tokens ∧
    (update_product "x" ⟨"k", none, none, 9, 0, none, none, true⟩ "tok"
      stProd).1.tokens = stProd.tokens ∧
    (delete_product "x" "tok" stProd).1.tokens = stProd.tokens ∧
    ("tok" ∉ stProd.tokens →
      (get_settings "tok" stProd).2 = .error (.http 401 "Unauthorized") ∧
      (update_settings demoHash ⟨none, none, none, none⟩ "tok" stProd).2 =
        .error (.http 401 "Unauthorized") ∧
      (create_product ⟨"k", none, none, 9, 0, none, none, true⟩ "tok"
        stProd).2 = .error (.http 401 "Unauthorized") ∧
      (update_product "x" ⟨"k", none, none, 9, 0, none, none, true⟩ "tok"
        stProd).2 = .error (.http 401 "Unauthorized") ∧
      (delete_product "x" "tok" stProd).2 =
        .error (.http 401 "Unauthorized")) ∧
    (("tok" : String) ≠ "" → "tok" ∈ stProd.tokens →
      (get_settings "tok" stProd).2 ≠ .error (.http 401 "Unauthorized") ∧
      (update_settings demoHash ⟨none, none, none, none⟩ "tok" stProd).2 ≠
        .error (.http 401 "Unauthorized") ∧
      (create_product ⟨"k", none, none, 9, 0, none, none, true⟩ "tok"
        stProd).2 ≠ .error (.http 401 "Unauthorized") ∧
      (update_product "x" ⟨"k", none, none, 9, 0, none, none, true⟩ "tok"
        stProd).2 ≠ .error (.http 401 "Unauthorized") ∧
      (delete_product "x" "tok" stProd).2 ≠
        .error (.http 401 "Unauthorized")) :=
  token_registry_lifecycle demoHash "T" ⟨"u", "p"⟩ ⟨none, none, none, none⟩
    ⟨"k", none, none, 9, 0, none, none, true⟩ "x" "tok" stProd
    (fun x h => absurd (congrArg String.data h) (by simp [demoHash]))

/-- C8: an authenticated product creation whose request body omits
`images`, `sizes`, `discount_percent`, `is_active` and `offer_minutes`
stores a record carrying the schema defaults: empty `images`, the five
standard `sizes`, `discount_percent` 0 and `is_active` true.  (A
non-negative price is required for the record to validate.) -/
theorem create_product_defaults (token : String) (s : ServerState) (d : Db)
    (raw : RawProductIn) (n : String) (pr : Int)
    (hne : token ≠ "") (hmem : token ∈ s.tokens) (hdb : s.db = some d)
    (hn : raw.name = some n) (hp : raw.price = some pr) (hpr : 0 ≤ pr)
    (himg : raw.images = none) (hsz : raw.sizes = none)
    (hdc : raw.discount_percent = none) (hact : raw.is_active = none)
    (hoff : raw.offer_minutes = none) :
    create_product_route raw token s =
      ({ s with db := some (Db.mk d.settings
          (d.products ++ [(freshId d.nextId,
            Product.mk n raw.description [] pr 0 ["XS", "S", "M", "L", "XL"]
              none true)])
          (d.nextId + 1)) },
        .ok (freshId d.nextId)) := by
  have hparse : parseProductIn raw =
      .ok (ProductIn.mk n raw.description raw.images pr 0 raw.sizes
        raw.offer_minutes true) := by
    unfold parseProductIn
    rw [hn, hp]
    simp [hdc, hact]
  unfold create_product_route
  rw [hparse]
  unfold create_product
  rw [auth_dependency_ok hne hmem, hdb]
  simp only [himg, hsz, hoff]
  unfold Product.build orList
  rw [if_pos ⟨hpr, by decide, by decide, rfl⟩]
  rfl

/-- C8 witness: creating `name := "Kurti", price := 999` with everything
else omitted, at a concrete authenticated state, stores the defaults. -/
theorem create_product_defaults_witness :
    create_product_route
        (RawProductIn.mk (some "Kurti") none none (some 999) none none none
          none) "tok" stProd =
      ({ stProd with db := some (Db.mk dbProd.settings
          (dbProd.products ++ [(freshId dbProd.nextId,
            Product.mk "Kurti" none [] 999 0 ["XS", "S", "M", "L", "XL"]
              none true)])
          (dbProd.nextId + 1)) },
        .ok (freshId dbProd.nextId)) :=
  create_product_defaults "tok" stProd dbProd
    (RawProductIn.mk (some "Kurti") none none (some 999) none none none none)
    "Kurti" 999 (by decide) (by simp [stProd]) rfl rfl rfl (by decide)
    rfl rfl rfl rfl rfl

/-- `create_product` treats an explicitly empty `sizes` list exactly like an
absent one: Python's `payload.sizes or [...]` is the default in both
cases. -/
theorem create_product_sizes_empty (payload : ProductIn) (token : String)
    (s : ServerState) (hsz : payload.sizes = some []) :
    create_product payload token s =
      create_product
        (ProductIn.mk payload.name payload.description payload.images
          payload.price payload.discount_percent none payload.offer_minutes
          payload.is_active) token s := by
  unfold create_product
  simp only [hsz]
  simp [orList]

/-- C10: a product creation whose body gives `sizes` as the explicitly
empty list behaves identically to one omitting `sizes`, and the stored
record carries the default five-size sequence. -/
theorem create_product_empty_sizes_default (token : String)
    (s : ServerState) (d : Db) (raw : RawProductIn) (n : String) (pr : Int)
    (hsz : raw.sizes = some [])
    (hne : token ≠ "") (hmem : token ∈ s.tokens) (hdb : s.db = some d)
    (hn : raw.name = some n) (hp : raw.price = some pr) (hpr : 0 ≤ pr)
    (hdc0 : 0 ≤ raw.discount_percent.getD 0)
    (hdc95 : raw.discount_percent.getD 0 ≤ 95)
    (hoff : raw.offer_minutes.all (fun m => 1 ≤ m) = true) :
    create_product_route raw token s =
      create_product_route
        (RawProductIn.mk raw.name raw.description raw.images raw.price
          raw.discount_percent none raw.offer_minutes raw.is_active)
        token s ∧
    create_product_route raw token s =
      ({ s with db := some (Db.mk d.settings
          (d.products ++ [(freshId d.nextId,
            Product.mk n raw.description (orList raw.images []) pr
              (raw.discount_percent.getD 0) ["XS", "S", "M", "L", "XL"]
              raw.offer_minutes (raw.is_active.getD true))])
          (d.nextId + 1)) },
        .ok (freshId d.nextId)) := by
  have hparse : parseProductIn raw =
      .ok (ProductIn.mk n raw.description raw.images pr
        (raw.discount_percent.getD 0) (some []) raw.offer_minutes
        (raw.is_active.getD true)) := by
    unfold parseProductIn
    rw [hn, hp]
    simp [hsz]
  have hparse2 : parseProductIn
      (RawProductIn.mk raw.name raw.description raw.images raw.price
        raw.discount_percent none raw.offer_minutes raw.is_active) =
      .ok (ProductIn.mk n raw.description raw.images pr
        (raw.discount_percent.getD 0) none raw.offer_minutes
        (raw.is_active.getD true)) := by
    unfold parseProductIn
    simp only []
    rw [hn, hp]
  constructor
  · unfold create_product_route
    rw [hparse, hparse2]
    exact create_product_sizes_empty _ token s rfl
  · unfold create_product_route
    rw [hparse]
    simp only []
    unfold create_product
    rw [auth_dependency_ok hne hmem, hdb]
    simp only []
    unfold Product.build orList
    rw [if_pos ⟨hpr, hdc0, hdc95, hoff⟩]
    rfl

/-- C10 witness: creating with `sizes := []` explicitly, at a concrete
authenticated state, equals the omitted-`sizes` creation and stores the
five standard sizes. -/
theorem create_product_empty_sizes_default_witness :
    create_product_route
        (RawProductIn.mk (some "Kurti") none none (some 999) none (some [])
          none none) "tok" stProd =
      create_product_route
        (RawProductIn.mk (some "Kurti") none none (some 999) none none none
          none) "tok" stProd ∧
    create_product_route
        (RawProductIn.mk (some "Kurti") none none (some 999) none (some [])
          none none) "tok" stProd =
      ({ stProd with db := some (Db.mk dbProd.settings
          (dbProd.products ++ [(freshId dbProd.nextId,
            Product.mk "Kurti" none (orList none []) 999
              ((none : Option Int).getD 0) ["XS", "S", "M", "L", "XL"]
              none ((none : Option Bool).getD true))])
          (dbProd.nextId + 1)) },
        .ok (freshId dbProd.nextId)) :=
  create_product_empty_sizes_default "tok" stProd dbProd
    (RawProductIn.mk (some "Kurti") none none (some 999) none (some [])
      none none)
    "Kurti" 999 rfl (by decide) (by simp [stProd]) rfl rfl rfl (by decide)
    (by decide) (by decide) rfl

/-- Inversion of FastAPI body validation: a successfully parsed `ProductIn`
determines every payload field from the raw body, with the declared
defaults for omitted `discount_percent` and `is_active`. -/
theorem parseProductIn_inv {raw : RawProductIn} {payload : ProductIn}
    (hparse : parseProductIn raw = .ok payload) :
    raw.name = some payload.name ∧ raw.price = some payload.price ∧
    payload.description = raw.description ∧ payload.images = raw.images ∧
    payload.discount_percent = raw.discount_percent.getD 0 ∧
    payload.sizes = raw.sizes ∧ payload.offer_minutes = raw.offer_minutes ∧
    payload.is_active = raw.is_active.getD true := by
  unfold parseProductIn at hparse
  cases hname : raw.name with
  | none => rw [hname] at hparse; simp at hparse
  | some n0 =>
      cases hprice : raw.price with
      | none => rw [hname, hprice] at hparse; simp at hparse
      | some p0 =>
          rw [hname, hprice] at hparse
          simp only [Except.ok.injEq] at hparse
          rw [← hparse]
          simp [hname, hprice]

/-- `update_product` on a matched id: the first record with that id gets
the `$set` patch of the non-`None` payload fields, everything else is
untouched, and the route reports `updated: true`. -/
theorem update_product_matched (token pid : String) (s : ServerState)
    (d : Db) (payload : ProductIn) (oid : String)
    (pre post : List (String × Product)) (p : Product)
    (hne : token ≠ "") (hmem : token ∈ s.tokens) (hdb : s.db = some d)
    (hpid : parseObjectId pid = some oid)
    (hprod : d.products = pre ++ (oid, p) :: post)
    (hpre : oid ∉ pre.map Prod.fst) :
    update_product pid payload token s =
      ({ s with db := some (Db.mk d.settings
          (pre ++ (oid, applyPatch (updatesOf payload) p) :: post)
          d.nextId) }, .ok true) := by
  unfold update_product
  rw [auth_dependency_ok hne hmem, hdb]
  simp only []
  rw [hpid]
  simp only [hprod]
  rw [updateFirst_found hpre]
  simp

/-- `update_product` on a well-formed id matching no record: 404, state
unchanged. -/
theorem update_product_unmatched (token pid : String) (s : ServerState)
    (d : Db) (payload : ProductIn) (oid : String)
    (hne : token ≠ "") (hmem : token ∈ s.tokens) (hdb : s.db = some d)
    (hpid : parseObjectId pid = some oid)
    (hnot : oid ∉ d.products.map Prod.fst) :
    update_product pid payload token s =
      (s, .error (.http 404 "Product not found")) := by
  unfold update_product
  rw [auth_dependency_ok hne hmem, hdb]
  simp only []
  rw [hpid]
  simp only []
  rw [updateFirst_notMem hnot]
  simp

/-- A raw update body omitting all optional fields, used in closed
statements. -/
def rawNP : RawProductIn :=
  ⟨some "n", none, none, some 100, none, none, none, none⟩

/-- The parse of `rawNP`: `discount_percent` back-filled to 0 and
`is_active` to true. -/
def payloadNP : ProductIn := ⟨"n", none, none, 100, 0, none, none, true⟩

/-- A second well-formed public id, distinct from `pid0` and unused in
`dbProd`. -/
def pid1 : String := String.mk (hexChars 24 7)

/-- C2 counterexample: at a state storing a product with
`discount_percent = 50`, an authenticated update whose body omits
`discount_percent` (and `is_active`) succeeds and OVERWRITES the stored
discount with the schema default 0 — the omitted field is not left
unchanged, refuting the claim. -/
theorem update_product_omitted_overwrite_cex :
    rawNP.discount_percent = none ∧
    stProd.db = some dbProd ∧ dbProd.products = [(pid0, prod50)] ∧
    prod50.discount_percent = 50 ∧
    (update_product_route pid0 rawNP "tok" stProd).2 = .ok true ∧
    ((update_product_route pid0 rawNP "tok" stProd).1.db.getD
        (Db.mk none [] 0)).products =
      [(pid0, Product.mk "n" none ["img"] 100 0 ["M"] none true)] :=
  ⟨rfl, rfl, rfl, rfl, rfl, rfl⟩

/-- C2 (amended): for an authenticated update with a parseable id, exactly
the non-`None` fields of the parsed payload are `$set` on the matched
record: omitted `description`, `images`, `sizes` and `offer_minutes` are
left unchanged, but omitted `discount_percent` and `is_active` are
back-filled by the request model to 0 and true and therefore overwrite the
stored values; `name` and `price` are always written.  A parseable id
matching no record yields 404 with no write. -/
theorem update_product_patch_semantics (token pid : String)
    (s : ServerState) (d : Db) (raw : RawProductIn) (payload : ProductIn)
    (oid : String)
    (hne : token ≠ "") (hmem : token ∈ s.tokens) (hdb : s.db = some d)
    (hparse : parseProductIn raw = .ok payload)
    (hpid : parseObjectId pid = some oid) :
    (∀ pre p post, d.products = pre ++ (oid, p) :: post →
      oid ∉ pre.map Prod.fst →
      update_product_route pid raw token s =
        ({ s with db := some (Db.mk d.settings
            (pre ++ (oid, applyPatch (updatesOf payload) p) :: post)
            d.nextId) }, .ok true) ∧
      applyPatch (updatesOf payload) p =
        Product.mk payload.name (raw.description <|> p.description)
          (raw.images.getD p.images) payload.price
          (raw.discount_percent.getD 0) (raw.sizes.getD p.sizes)
          (raw.offer_minutes <|> p.offer_minutes)
          (raw.is_active.getD true)) ∧
    (oid ∉ d.products.map Prod.fst →
      update_product_route pid raw token s =
        (s, .error (.http 404 "Product not found"))) := by
  obtain ⟨-, -, hdesc, himg, hdc, hsz, hoff, hact⟩ := parseProductIn_inv hparse
  constructor
  · intro pre p post hprod hpre
    constructor
    · unfold update_product_route
      rw [hparse]
      exact update_product_matched token pid s d payload oid pre post p
        hne hmem hdb hpid hprod hpre
    · unfold applyPatch updatesOf
      rw [← hdesc, ← himg, ← hdc, ← hsz, ← hoff, ← hact]
      rfl
  · intro hnot
    unfold update_product_route
    rw [hparse]
    exact update_product_unmatched token pid s d payload oid
      hne hmem hdb hpid hnot

/-- C2 witness: the amended patch semantics evaluated at the concrete
state `stProd`, both for the matched id `pid0` and the unmatched id
`pid1`. -/
theorem update_product_patch_semantics_witness :
    (update_product_route pid0 rawNP "tok" stProd =
      ({ stProd with db := some (Db.mk dbProd.settings
          ([] ++ (pid0, applyPatch (updatesOf payloadNP) prod50) :: [])
          dbProd.nextId) }, .ok true) ∧
      applyPatch (updatesOf payloadNP) prod50 =
        Product.mk payloadNP.name (rawNP.description <|> prod50.description)
          (rawNP.images.getD prod50.images) payloadNP.price
          (rawNP.discount_percent.getD 0) (rawNP.sizes.getD prod50.sizes)
          (rawNP.offer_minutes <|> prod50.offer_minutes)
          (rawNP.is_active.getD true)) ∧
    update_product_route pid1 rawNP "tok" stProd =
      (stProd, .error (.http 404 "Product not found")) :=
  ⟨(update_product_patch_semantics "tok" pid0 stProd dbProd rawNP payloadNP
      pid0 (by decide) (by simp [stProd]) rfl rfl rfl).1 [] prod50 [] rfl
      (by simp),
    (update_product_patch_semantics "tok" pid1 stProd dbProd rawNP payloadNP
      pid1 (by decide) (by simp [stProd]) rfl rfl rfl).2 (by decide)⟩

/-- C3 counterexample: an authenticated update whose body carries
`discount_percent = 200` — far outside the documented [0,95] range — is NOT
rejected with a client error: the HTTP surface declares no range
constraints on `ProductIn`, so the route succeeds and the store is written
with the out-of-range value. -/
theorem range_validation_absent_cex :
    (parseProductIn
        (RawProductIn.mk (some "n") none none (some 5) (some 200) none none
          none)).isOk = true ∧
    (update_product_route pid0
        (RawProductIn.mk (some "n") none none (some 5) (some 200) none none
          none) "tok" stProd).2 = .ok true ∧
    ((update_product_route pid0
        (RawProductIn.mk (some "n") none none (some 5) (some 200) none none
          none) "tok" stProd).1.db.getD (Db.mk none [] 0)).products =
      [(pid0, Product.mk "n" none ["img"] 5 200 ["M"] none true)] ∧
    ¬(200 : Int) ≤ 95 :=
  ⟨rfl, rfl, rfl, by decide⟩

/-- C3 (amended): bodies violating the declared shape (missing required
`name` or `price`) are rejected 422 before the handler runs and before any
store access; but the declared route payload carries no numeric-range
constraints: a range-violating create fails only inside the handler, as an
uncaught `ValidationError` (a server error, not 4xx) raised after auth and
store-readiness checks though before any store write, and a
range-violating update is accepted and written verbatim. -/
theorem payload_validation_semantics (token pid : String) (s : ServerState)
    (d : Db) (hne : token ≠ "") (hmem : token ∈ s.tokens)
    (hdb : s.db = some d) :
    (∀ raw : RawProductIn, raw.name = none ∨ raw.price = none →
      create_product_route raw token s =
        (s, .error (.http 422 "Unprocessable Entity")) ∧
      update_product_route pid raw token s =
        (s, .error (.http 422 "Unprocessable Entity"))) ∧
    (∀ payload : ProductIn,
      ¬(0 ≤ payload.price ∧ 0 ≤ payload.discount_percent ∧
          payload.discount_percent ≤ 95 ∧
          payload.offer_minutes.all (fun m => 1 ≤ m) = true) →
      create_product payload token s =
        (s, .error (.exn "ValidationError"))) ∧
    (∀ (payload : ProductIn) (oid : String) pre p post,
      parseObjectId pid = some oid →
      d.products = pre ++ (oid, p) :: post → oid ∉ pre.map Prod.fst →
      update_product pid payload token s =
        ({ s with db := some (Db.mk d.settings
            (pre ++ (oid, applyPatch (updatesOf payload) p) :: post)
            d.nextId) }, .ok true) ∧
      (applyPatch (updatesOf payload) p).discount_percent =
        payload.discount_percent ∧
      (applyPatch (updatesOf payload) p).price = payload.price) := by
  refine ⟨?_, ?_, ?_⟩
  · intro raw hshape
    have hp : parseProductIn raw = .error (.http 422 "Unprocessable Entity") := by
      unfold parseProductIn
      rcases hshape with h | h
      · rw [h]
      · rw [h]
        cases raw.name <;> rfl
    constructor
    · unfold create_product_route; rw [hp]
    · unfold update_product_route; rw [hp]
  · intro payload hrange
    unfold create_product
    rw [auth_dependency_ok hne hmem, hdb]
    simp only []
    unfold Product.build
    rw [if_neg hrange]
  · intro payload oid pre p post hpid hprod hpre
    exact ⟨update_product_matched token pid s d payload oid pre post p
        hne hmem hdb hpid hprod hpre, rfl, rfl⟩

/-- C3 witness: the amended validation semantics at the concrete state
`stProd`: a body missing `name` gets 422 on both routes, a create with
price −5 raises `ValidationError` inside the handler, and an update
carrying `discount_percent = 200` on the stored product is written
verbatim. -/
theorem payload_validation_semantics_witness :
    (create_product_route
        (RawProductIn.mk none none none (some 5) none none none none) "tok"
        stProd = (stProd, .error (.http 422 "Unprocessable Entity")) ∧
      update_product_route pid0
        (RawProductIn.mk none none none (some 5) none none none none) "tok"
        stProd = (stProd, .error (.http 422 "Unprocessable Entity"))) ∧
    create_product (ProductIn.mk "k" none none (-5) 0 none none true) "tok"
      stProd = (stProd, .error (.exn "ValidationError")) ∧
    (update_product pid0
        (ProductIn.mk "n" none none 5 200 none none true) "tok" stProd =
      ({ stProd with db := some (Db.mk dbProd.settings
          ([] ++ (pid0, applyPatch
            (updatesOf (ProductIn.mk "n" none none 5 200 none none true))
            prod50) :: [])
          dbProd.nextId) }, .ok true) ∧
      (applyPatch (updatesOf (ProductIn.mk "n" none none 5 200 none none
        true)) prod50).discount_percent =
        (ProductIn.mk "n" none none 5 200 none none true).discount_percent ∧
      (applyPatch (updatesOf (ProductIn.mk "n" none none 5 200 none none
        true)) prod50).price =
        (ProductIn.mk "n" none none 5 200 none none true).price) :=
  ⟨(payload_validation_semantics "tok" pid0 stProd dbProd (by decide)
      (by simp [stProd]) rfl).1
      (RawProductIn.mk none none none (some 5) none none none none)
      (Or.inl rfl),
    (payload_validation_semantics "tok" pid0 stProd dbProd (by decide)
      (by simp [stProd]) rfl).2.1
      (ProductIn.mk "k" none none (-5) 0 none none true) (by decide),
    (payload_validation_semantics "tok" pid0 stProd dbProd (by decide)
      (by simp [stProd]) rfl).2.2
      (ProductIn.mk "n" none none 5 200 none none true) pid0 [] prod50 []
      rfl rfl (by simp)⟩

/-- C4 counterexample: `"bogus"` names no stored product, and the claim
demands a 404 for it; but the id string fails `ObjectId` parsing, so an
authenticated delete raises `InvalidId` — surfaced as a server error, not
404. -/
theorem delete_product_malformed_id_cex :
    "bogus" ∉ dbProd.products.map Prod.fst ∧
    (delete_product "bogus" "tok" stProd).2 = .error (.exn "InvalidId") ∧
    ApiError.exn "InvalidId" ≠ ApiError.http 404 "Product not found" :=
  ⟨by decide, rfl, by simp⟩

/-- C4 (amended): for an authenticated delete, an id string that fails
`ObjectId` parsing raises `InvalidId` (a server error); a parseable id
matching no stored product yields 404 with no write; deleting a stored
product returns `deleted: true`, removes exactly that record, and its id no
longer appears in a subsequent public listing. -/
theorem delete_product_semantics (token pid : String) (s : ServerState)
    (d : Db) (hne : token ≠ "") (hmem : token ∈ s.tokens)
    (hdb : s.db = some d) :
    (parseObjectId pid = none →
      delete_product pid token s = (s, .error (.exn "InvalidId"))) ∧
    (∀ oid, parseObjectId pid = some oid →
      oid ∉ d.products.map Prod.fst →
      delete_product pid token s =
        (s, .error (.http 404 "Product not found"))) ∧
    (∀ oid pre p post, parseObjectId pid = some oid →
      d.products = pre ++ (oid, p) :: post →
      oid ∉ (pre ++ post).map Prod.fst →
      delete_product pid token s =
        ({ s with db := some (Db.mk d.settings (pre ++ post) d.nextId) },
          .ok true) ∧
      ∀ q ∈ list_products (delete_product pid token s).1, q.id ≠ oid) := by
  refine ⟨?_, ?_, ?_⟩
  · intro hpid
    unfold delete_product
    rw [auth_dependency_ok hne hmem, hdb]
    simp only []
    rw [hpid]
  · intro oid hpid hnot
    unfold delete_product
    rw [auth_dependency_ok hne hmem, hdb]
    simp only []
    rw [hpid]
    simp only []
    rw [deleteFirst_notMem hnot]
    simp
  · intro oid pre p post hpid hprod hnot
    have hdel : delete_product pid token s =
        ({ s with db := some (Db.mk d.settings (pre ++ post) d.nextId) },
          .ok true) := by
      unfold delete_product
      rw [auth_dependency_ok hne hmem, hdb]
      simp only []
      rw [hpid]
      simp only [hprod]
      rw [deleteFirst_found (by
        intro hc
        exact hnot (by simpa using Or.inl hc))]
      simp
    refine ⟨hdel, ?_⟩
    intro q hq
    rw [hdel] at hq
    unfold list_products get_documents_product at hq
    simp only [List.mem_map] at hq
    obtain ⟨⟨i, p'⟩, hip, hqeq⟩ := hq
    intro hqid
    apply hnot
    rw [← hqeq] at hqid
    simp only [to_public] at hqid
    rw [List.mem_map]
    exact ⟨(i, p'), hip, hqid⟩

/-- C4 witness: at the concrete state `stProd`: the malformed id
`"bogus"` raises `InvalidId`, the unmatched id `pid1` yields 404, and
deleting `pid0` succeeds and removes it from the listing. -/
theorem delete_product_semantics_witness :
    delete_product "bogus" "tok" stProd =
      (stProd, .error (.exn "InvalidId")) ∧
    delete_product pid1 "tok" stProd =
      (stProd, .error (.http 404 "Product not found")) ∧
    (delete_product pid0 "tok" stProd =
      ({ stProd with db := some (Db.mk dbProd.settings ([] ++ [])
          dbProd.nextId) }, .ok true) ∧
      ∀ q ∈ list_products (delete_product pid0 "tok" stProd).1,
        q.id ≠ pid0) :=
  ⟨(delete_product_semantics "tok" "bogus" stProd dbProd (by decide)
      (by simp [stProd]) rfl).1 rfl,
    (delete_product_semantics "tok" pid1 stProd dbProd (by decide)
      (by simp [stProd]) rfl).2.1 pid1 rfl (by decide),
    (delete_product_semantics "tok" pid0 stProd dbProd (by decide)
      (by simp [stProd]) rfl).2.2 pid0 [] prod50 [] rfl rfl (by simp)⟩

end Viyan
